import Mathlib

set_option maxRecDepth 10000
set_option maxHeartbeats 1600000
set_option linter.unreachableTactic false
set_option linter.unusedTactic false

/-!
Verification of the Material-Dither image-processing core (`processImage` in
`services/ditherService.ts`) against its natural-language specification.

The pixel pipeline is shallowly embedded: JavaScript numbers are modelled by
`JSNum` (an exact rational, a signed infinity, or NaN), with the arithmetic,
comparison and `Math.min`/`Math.max` operations used by the source given their
ECMAScript semantics on that type.  Rational arithmetic is exact where the
source uses binary floating point; every property below is about the algebraic
structure of the algorithm (which neighbours receive error, which weights,
which threshold formula, what the output ranges over), none of which depends on
floating-point rounding.  The `Float32Array` grey buffer is a `List JSNum`,
`ImageData.data` is a function from byte index to byte value, and the single
`Math.random()` draw made per pixel in NOISE mode is an oracle `rand` indexed
by the pixel position.
-/

namespace MaterialDither

/-- The `DitherMethod` enum from `types.ts`. -/
inductive DitherMethod
  | THRESHOLD
  | FLOYD_STEINBERG
  | ATKINSON
  | BAYER_4
  | BAYER_8
  | NOISE
  deriving DecidableEq

/-- The settings record passed to `processImage` (`types.ts` / `ditherService.ts`). -/
structure DitherSettings where
  method : DitherMethod
  threshold : ℚ
  pixelSize : ℚ
  contrast : ℚ
  brightness : ℚ

/-- A JavaScript number as used by the dither core: an exact finite value,
a signed infinity, or NaN.  (`inf true` is `+Infinity`, `inf false` is
`-Infinity`.) -/
inductive JSNum
  | num (q : ℚ)
  | inf (pos : Bool)
  | nan
  deriving DecidableEq

namespace JSNum

/-- JavaScript unary negation. -/
def neg : JSNum → JSNum
  | num q => num (-q)
  | inf s => inf (!s)
  | nan => nan

/-- JavaScript `+` on numbers. -/
def add : JSNum → JSNum → JSNum
  | nan, _ => nan
  | num _, nan => nan
  | inf _, nan => nan
  | num a, num b => num (a + b)
  | num _, inf s => inf s
  | inf s, num _ => inf s
  | inf s, inf t => if s = t then inf s else nan

/-- JavaScript `-` on numbers. -/
def sub (a b : JSNum) : JSNum := a.add b.neg

/-- JavaScript `*` on numbers. -/
def mul : JSNum → JSNum → JSNum
  | nan, _ => nan
  | num _, nan => nan
  | inf _, nan => nan
  | num a, num b => num (a * b)
  | num a, inf s => if a = 0 then nan else if 0 < a then inf s else inf (!s)
  | inf s, num a => if a = 0 then nan else if 0 < a then inf s else inf (!s)
  | inf s, inf t => inf (s == t)

/-- JavaScript `/` on numbers (positive zero denominator). -/
def div : JSNum → JSNum → JSNum
  | nan, _ => nan
  | num _, nan => nan
  | inf _, nan => nan
  | num a, num b =>
      if b = 0 then (if a = 0 then nan else if 0 < a then inf true else inf false)
      else num (a / b)
  | num _, inf _ => num 0
  | inf s, num b => if 0 ≤ b then inf s else inf (!s)
  | inf _, inf _ => nan

/-- JavaScript `Math.min` on two arguments. -/
def jmin : JSNum → JSNum → JSNum
  | nan, _ => nan
  | num _, nan => nan
  | inf _, nan => nan
  | num a, num b => num (min a b)
  | num a, inf s => if s then num a else inf false
  | inf s, num a => if s then num a else inf false
  | inf s, inf t => inf (s && t)

/-- JavaScript `Math.max` on two arguments. -/
def jmax : JSNum → JSNum → JSNum
  | nan, _ => nan
  | num _, nan => nan
  | inf _, nan => nan
  | num a, num b => num (max a b)
  | num a, inf s => if s then inf true else num a
  | inf s, num a => if s then inf true else num a
  | inf s, inf t => inf (s || t)

/-- JavaScript `<` on numbers (any comparison with NaN is false). -/
def ltb : JSNum → JSNum → Bool
  | nan, _ => false
  | num _, nan => false
  | inf _, nan => false
  | num a, num b => decide (a < b)
  | num _, inf s => s
  | inf s, num _ => !s
  | inf s, inf t => !s && t

/-- Whether a value is `+Infinity` or `-Infinity`. -/
def isInf : JSNum → Bool
  | inf _ => true
  | _ => false

end JSNum

/-- The fixed 4×4 Bayer matrix constant of `ditherService.ts`. -/
def bayer4 : List (List ℚ) :=
  [[0, 8, 2, 10],
   [12, 4, 14, 6],
   [3, 11, 1, 9],
   [15, 7, 13, 5]]

/-- The fixed 8×8 Bayer matrix constant of `ditherService.ts`. -/
def bayer8 : List (List ℚ) :=
  [[0, 32, 8, 40, 2, 34, 10, 42],
   [48, 16, 56, 24, 50, 18, 58, 26],
   [12, 44, 4, 36, 14, 46, 6, 38],
   [60, 28, 52, 20, 62, 30, 54, 22],
   [3, 35, 11, 43, 1, 33, 9, 41],
   [51, 19, 59, 27, 49, 17, 57, 25],
   [15, 47, 7, 39, 13, 45, 5, 37],
   [63, 31, 55, 23, 61, 29, 53, 21]]

/-- `contrastFactor`: `(259 * (settings.contrast + 255)) / (255 * (259 - settings.contrast))`.
The division is taken in JavaScript semantics, since the denominator vanishes at
`contrast = 259`. -/
def contrastFactor (s : DitherSettings) : JSNum :=
  JSNum.div (JSNum.num (259 * (s.contrast + 255))) (JSNum.num (255 * (259 - s.contrast)))

/-- `applyFilters`: greyscale luma, then brightness, then contrast, then clamp
via `Math.max(0, Math.min(255, gray))`. -/
def applyFilters (s : DitherSettings) (r g b : ℚ) : JSNum :=
  let gray : ℚ := 0.299 * r + 0.587 * g + 0.114 * b
  let gray : ℚ := gray + s.brightness
  let gray' : JSNum :=
    JSNum.add (JSNum.mul (contrastFactor s) (JSNum.num (gray - 128))) (JSNum.num 128)
  JSNum.jmax (JSNum.num 0) (JSNum.jmin (JSNum.num 255) gray')

/-- The greyscale pre-processing loop
`for (i = 0; i < data.length; i += 4) buffer[i/4] = applyFilters(data[i], data[i+1], data[i+2])`
over a zero-initialised `Float32Array(w * h)`, re-indexed by the pixel number
`p = i / 4`. -/
def initBuffer (s : DitherSettings) (data : ℕ → ℚ) (w h : ℕ) : List JSNum :=
  (List.range (w * h)).foldl
    (fun buf p =>
      buf.set p (applyFilters s (data (4 * p)) (data (4 * p + 1)) (data (4 * p + 2))))
    (List.replicate (w * h) (JSNum.num 0))

/-- The per-pixel binarisation decision of `processImage` (the
`if/else if` chain choosing `newPixel`); `draw` is the `Math.random()` value
used in NOISE mode. -/
def decidePixel (s : DitherSettings) (draw : ℚ) (oldPixel : JSNum) (x y : ℕ) : JSNum :=
  match s.method with
  | .BAYER_4 =>
      let mapValue : ℚ := (bayer4.getD (y % 4) []).getD (x % 4) 0
      let mapThresh : ℚ := mapValue / 16 * 255
      let finalThresh : ℚ := (mapThresh + s.threshold) / 2
      if oldPixel.ltb (JSNum.num finalThresh) then JSNum.num 0 else JSNum.num 255
  | .BAYER_8 =>
      let mapValue : ℚ := (bayer8.getD (y % 8) []).getD (x % 8) 0
      let mapThresh : ℚ := mapValue / 64 * 255
      let finalThresh : ℚ := (mapThresh + s.threshold) / 2
      if oldPixel.ltb (JSNum.num finalThresh) then JSNum.num 0 else JSNum.num 255
  | .NOISE =>
      let noise : ℚ := (draw - 0.5) * 60
      if (JSNum.add oldPixel (JSNum.num noise)).ltb (JSNum.num s.threshold)
        then JSNum.num 0 else JSNum.num 255
  | _ =>
      if oldPixel.ltb (JSNum.num s.threshold) then JSNum.num 0 else JSNum.num 255

/-- `buffer[j] += e` (a no-op outside the buffer, as for a typed array). -/
def addAt (buf : List JSNum) (j : ℕ) (e : JSNum) : List JSNum :=
  buf.set j (JSNum.add (buf.getD j (JSNum.num 0)) e)

/-- One iteration of the inner dither loop body at column `x`, row `y`:
read `oldPixel`, decide `newPixel`, write it back, and distribute the
quantisation error according to the selected method. -/
def ditherStep (s : DitherSettings) (rand : ℕ → ℚ) (w h : ℕ)
    (buf : List JSNum) (x y : ℕ) : List JSNum :=
  let i := y * w + x
  let oldPixel := buf.getD i (JSNum.num 0)
  let newPixel := decidePixel s (rand i) oldPixel x y
  let buf1 := buf.set i newPixel
  let quantError := JSNum.sub oldPixel newPixel
  match s.method with
  | .FLOYD_STEINBERG =>
      let b2 := if x + 1 < w then
          addAt buf1 (i + 1) (JSNum.mul quantError (JSNum.num (7 / 16))) else buf1
      if y + 1 < h then
        let b3 := if 1 ≤ x then
            addAt b2 (i + w - 1) (JSNum.mul quantError (JSNum.num (3 / 16))) else b2
        let b4 := addAt b3 (i + w) (JSNum.mul quantError (JSNum.num (5 / 16)))
        if x + 1 < w then
          addAt b4 (i + w + 1) (JSNum.mul quantError (JSNum.num (1 / 16))) else b4
      else b2
  | .ATKINSON =>
      let b2 := if x + 1 < w then
          addAt buf1 (i + 1) (JSNum.mul quantError (JSNum.num (1 / 8))) else buf1
      let b3 := if x + 2 < w then
          addAt b2 (i + 2) (JSNum.mul quantError (JSNum.num (1 / 8))) else b2
      let b4 :=
        if y + 1 < h then
          let c1 := if 1 ≤ x then
              addAt b3 (i + w - 1) (JSNum.mul quantError (JSNum.num (1 / 8))) else b3
          let c2 := addAt c1 (i + w) (JSNum.mul quantError (JSNum.num (1 / 8)))
          if x + 1 < w then
            addAt c2 (i + w + 1) (JSNum.mul quantError (JSNum.num (1 / 8))) else c2
        else b3
      if y + 2 < h then
        addAt b4 (i + 2 * w) (JSNum.mul quantError (JSNum.num (1 / 8))) else b4
  | _ => buf1

/-- The nested `for (y) for (x)` dither scan of `processImage`. -/
def ditherPass (s : DitherSettings) (rand : ℕ → ℚ) (w h : ℕ)
    (buf : List JSNum) : List JSNum :=
  (List.range h).foldl
    (fun b y => (List.range w).foldl (fun b' x => ditherStep s rand w h b' x y) b) buf

/-- The ECMAScript `ToUint8Clamp` conversion performed by an assignment into a
`Uint8ClampedArray` (clamp to `[0, 255]`, round half to even, NaN to 0). -/
def clampedByte : JSNum → ℕ
  | .nan => 0
  | .inf s => if s then 255 else 0
  | .num q =>
      if q ≤ 0 then 0
      else if 255 ≤ q then 255
      else
        let f : ℕ := (⌊q⌋).toNat
        let r : ℚ := q - (f : ℚ)
        if r < 1 / 2 then f
        else if 1 / 2 < r then f + 1
        else if f % 2 = 0 then f else f + 1

/-- The whole of `processImage`: tone-adjust into the grey buffer, run the
dither scan, then write every pixel back as `(val, val, val, 255)`.  The result
is the final byte array, indexed like `imageData.data`: byte `k` belongs to
pixel `k / 4`, channel `k % 4`. -/
def processImage (data : ℕ → ℚ) (rand : ℕ → ℚ) (w h : ℕ) (s : DitherSettings) : List ℕ :=
  let buffer := ditherPass s rand w h (initBuffer s data w h)
  (List.range (w * h * 4)).map (fun k =>
    if k % 4 = 3 then 255 else clampedByte (buffer.getD (k / 4) (JSNum.num 0)))

/-- The dither scan flattened to a single fold over the raster pixel index
`i = y * w + x`, which the nested `for (y) for (x)` loops visit as
`0, 1, 2, …`; `flatPass … n` is the buffer after the first `n` pixels. -/
def flatPass (s : DitherSettings) (rand : ℕ → ℚ) (w h : ℕ)
    (buf : List JSNum) (n : ℕ) : List JSNum :=
  (List.range n).foldl (fun b i => ditherStep s rand w h b (i % w) (i / w)) buf

/-- The clamped tone curve over exact rationals: the value `applyFilters`
computes, for a finite contrast factor `φ`, from the pre-brightness grey
level `g`. -/
def toneQ (φ br g : ℚ) : ℚ :=
  max 0 (min 255 (φ * (g + br - 128) + 128))

/-- Constant input data: every byte of the RGBA array is `v`. -/
def constData (v : ℚ) : ℕ → ℚ := fun _ => v

/-- A fixed oracle for the per-pixel NOISE draw. -/
def zeroRand : ℕ → ℚ := fun _ => 0

/-- Settings with the default threshold 128 and brightness 0, used to
instantiate theorems at concrete inputs. -/
def mkSettings (m : DitherMethod) (c : ℚ) : DitherSettings :=
  { method := m, threshold := 128, pixelSize := 1, contrast := c, brightness := 0 }

/-- The quantisation error `quantError = oldPixel - newPixel` computed by
`processImage` at pixel `(x, y)` of grey buffer `buf`. -/
def quantErrorAt (s : DitherSettings) (rand : ℕ → ℚ) (w : ℕ)
    (buf : List JSNum) (x y : ℕ) : JSNum :=
  JSNum.sub (buf.getD (y * w + x) (JSNum.num 0))
    (decidePixel s (rand (y * w + x)) (buf.getD (y * w + x) (JSNum.num 0)) x y)

end MaterialDither

namespace MaterialDither

/-! ## List bookkeeping helpers -/

theorem getD_set_self {α : Type} (l : List α) (i : ℕ) (a d : α) (h : i < l.length) :
    (l.set i a).getD i d = a := by
  simp [List.getD_eq_getElem?_getD, List.getElem?_set_self h]

theorem getD_set_ne {α : Type} (l : List α) {i j : ℕ} (a d : α) (h : i ≠ j) :
    (l.set i a).getD j d = l.getD j d := by
  simp [List.getD_eq_getElem?_getD, List.getElem?_set_ne h]

theorem addAt_length (buf : List JSNum) (j : ℕ) (e : JSNum) :
    (addAt buf j e).length = buf.length := by
  simp [addAt]

theorem getD_addAt_self (buf : List JSNum) (j : ℕ) (e : JSNum) (h : j < buf.length) :
    (addAt buf j e).getD j (JSNum.num 0) = JSNum.add (buf.getD j (JSNum.num 0)) e := by
  unfold addAt
  exact getD_set_self _ _ _ _ h

theorem getD_addAt_ne (buf : List JSNum) {j k : ℕ} (e : JSNum) (d : JSNum) (h : j ≠ k) :
    (addAt buf j e).getD k d = buf.getD k d := by
  unfold addAt
  exact getD_set_ne _ _ _ h

end MaterialDither

namespace MaterialDither

theorem ditherStep_length (s : DitherSettings) (rand : ℕ → ℚ) (w h : ℕ)
    (buf : List JSNum) (x y : ℕ) :
    (ditherStep s rand w h buf x y).length = buf.length := by
  unfold ditherStep
  cases hm : s.method <;> dsimp only <;> (try split_ifs) <;>
    simp [addAt, List.length_set]

theorem ditherStep_getD_lt (s : DitherSettings) (rand : ℕ → ℚ) (w h : ℕ)
    (buf : List JSNum) (x y j : ℕ) (d : JSNum) (hx : x < w) (hj : j < y * w + x) :
    (ditherStep s rand w h buf x y).getD j d = buf.getD j d := by
  unfold ditherStep
  cases hm : s.method <;> dsimp only <;> (try split_ifs) <;>
    (repeat first
      | rw [getD_addAt_ne _ _ _ (by omega)]
      | rw [getD_set_ne _ _ _ (by omega)])

theorem ditherStep_getD_self (s : DitherSettings) (rand : ℕ → ℚ) (w h : ℕ)
    (buf : List JSNum) (x y : ℕ) (hx : x < w) (hi : y * w + x < buf.length) :
    (ditherStep s rand w h buf x y).getD (y * w + x) (JSNum.num 0)
      = decidePixel s (rand (y * w + x)) (buf.getD (y * w + x) (JSNum.num 0)) x y := by
  unfold ditherStep
  cases hm : s.method <;> dsimp only <;> (try split_ifs) <;>
    (repeat rw [getD_addAt_ne _ _ _ (by omega)]) <;>
    exact getD_set_self _ _ _ _ hi

theorem ditherStep_nondiffusing (s : DitherSettings) (rand : ℕ → ℚ) (w h : ℕ)
    (buf : List JSNum) (x y : ℕ)
    (hm : s.method = .THRESHOLD ∨ s.method = .BAYER_4 ∨ s.method = .BAYER_8 ∨
      s.method = .NOISE) :
    ditherStep s rand w h buf x y
      = buf.set (y * w + x)
          (decidePixel s (rand (y * w + x)) (buf.getD (y * w + x) (JSNum.num 0)) x y) := by
  rcases hm with h | h | h | h <;> unfold ditherStep <;> rw [h]

end MaterialDither
namespace MaterialDither

theorem flatPass_succ (s : DitherSettings) (rand : ℕ → ℚ) (w h : ℕ)
    (buf : List JSNum) (n : ℕ) :
    flatPass s rand w h buf (n + 1)
      = ditherStep s rand w h (flatPass s rand w h buf n) (n % w) (n / w) := by
  unfold flatPass
  rw [List.range_succ, List.foldl_append]
  rfl

theorem flatPass_length (s : DitherSettings) (rand : ℕ → ℚ) (w h : ℕ)
    (buf : List JSNum) (n : ℕ) :
    (flatPass s rand w h buf n).length = buf.length := by
  induction n with
  | zero => rfl
  | succ n ih => rw [flatPass_succ, ditherStep_length, ih]

theorem flatPass_add (s : DitherSettings) (rand : ℕ → ℚ) (w h : ℕ)
    (buf : List JSNum) (a b : ℕ) :
    flatPass s rand w h buf (a + b)
      = (List.range b).foldl
          (fun bf x => ditherStep s rand w h bf ((a + x) % w) ((a + x) / w))
          (flatPass s rand w h buf a) := by
  unfold flatPass
  rw [List.range_add, List.foldl_append, List.foldl_map]

theorem ditherPass_eq_flatPass (s : DitherSettings) (rand : ℕ → ℚ) (w h : ℕ)
    (buf : List JSNum) :
    ditherPass s rand w h buf = flatPass s rand w h buf (h * w) := by
  suffices H : ∀ m, (List.range m).foldl
      (fun b y => (List.range w).foldl (fun b' x => ditherStep s rand w h b' x y) b) buf
      = flatPass s rand w h buf (m * w) from H h
  intro m
  induction m with
  | zero => simp [flatPass]
  | succ m ih =>
    rw [List.range_succ, List.foldl_append, Nat.succ_mul, flatPass_add, ← ih]
    simp only [List.foldl_cons, List.foldl_nil]
    refine (List.foldl_ext _ _ _ (fun b x hx => ?_)).symm
    have hxw : x < w := List.mem_range.mp hx
    rw [mul_comm m w, Nat.mul_add_mod, Nat.mod_eq_of_lt hxw,
      Nat.mul_add_div (by omega), Nat.div_eq_of_lt hxw, Nat.add_zero]

end MaterialDither
namespace MaterialDither

theorem decidePixel_binary (s : DitherSettings) (draw : ℚ) (old : JSNum) (x y : ℕ) :
    decidePixel s draw old x y = JSNum.num 0 ∨ decidePixel s draw old x y = JSNum.num 255 := by
  unfold decidePixel
  cases s.method <;> dsimp only <;> split_ifs <;> simp

theorem flatPass_binary (s : DitherSettings) (rand : ℕ → ℚ) (w h : ℕ)
    (buf : List JSNum) (hb : buf.length = w * h) :
    ∀ n, n ≤ w * h → ∀ j, j < n →
      (flatPass s rand w h buf n).getD j (JSNum.num 0) = JSNum.num 0 ∨
      (flatPass s rand w h buf n).getD j (JSNum.num 0) = JSNum.num 255 := by
  intro n
  induction n with
  | zero => intro _ j hj; omega
  | succ n ih =>
    intro hn j hj
    have hw : 0 < w := by
      rcases Nat.eq_zero_or_pos w with h0 | h0
      · subst h0; omega
      · exact h0
    have hx : n % w < w := Nat.mod_lt _ hw
    have hyx : n / w * w + n % w = n := by
      rw [mul_comm]; exact Nat.div_add_mod n w
    rw [flatPass_succ]
    rcases Nat.lt_or_ge j n with hlt | hge
    · have hstep := ditherStep_getD_lt s rand w h (flatPass s rand w h buf n)
        (n % w) (n / w) j (JSNum.num 0) hx (by omega)
      rw [hstep]
      exact ih (by omega) j hlt
    · have hj' : j = n := by omega
      have hstep := ditherStep_getD_self s rand w h (flatPass s rand w h buf n)
        (n % w) (n / w) hx (by rw [flatPass_length, hb]; omega)
      rw [hyx] at hstep
      rw [hj', hstep]
      exact decidePixel_binary _ _ _ _ _

theorem flatPass_nondiffusing_getD (s : DitherSettings) (rand : ℕ → ℚ) (w h : ℕ)
    (buf : List JSNum)
    (hm : s.method = .THRESHOLD ∨ s.method = .BAYER_4 ∨ s.method = .BAYER_8 ∨
      s.method = .NOISE)
    (hb : buf.length = w * h) :
    ∀ n, n ≤ w * h → ∀ j,
      (flatPass s rand w h buf n).getD j (JSNum.num 0)
        = if j < n then
            decidePixel s (rand j) (buf.getD j (JSNum.num 0)) (j % w) (j / w)
          else buf.getD j (JSNum.num 0) := by
  intro n
  induction n with
  | zero => intro _ j; simp [flatPass]
  | succ n ih =>
    intro hn j
    have hw : 0 < w := by
      rcases Nat.eq_zero_or_pos w with h0 | h0
      · subst h0; omega
      · exact h0
    have hyx : n / w * w + n % w = n := by
      rw [mul_comm]; exact Nat.div_add_mod n w
    rw [flatPass_succ, ditherStep_nondiffusing _ _ _ _ _ _ _ hm, hyx]
    by_cases hjn : j = n
    · subst hjn
      rw [getD_set_self _ _ _ _ (by rw [flatPass_length, hb]; omega)]
      rw [ih (by omega) j]
      simp [Nat.lt_irrefl]
    · rw [getD_set_ne _ _ _ (by omega), ih (by omega) j]
      rcases Nat.lt_trichotomy j n with hlt | heq | hgt
      · rw [if_pos hlt, if_pos (by omega)]
      · omega
      · rw [if_neg (by omega), if_neg (by omega)]

end MaterialDither
namespace MaterialDither

theorem foldl_set_length {α : Type} (f : ℕ → α) (l : List ℕ) (init : List α) :
    (l.foldl (fun b p => b.set p (f p)) init).length = init.length := by
  induction l generalizing init with
  | nil => rfl
  | cons a t ih => rw [List.foldl_cons, ih, List.length_set]

theorem initBuffer_length (s : DitherSettings) (data : ℕ → ℚ) (w h : ℕ) :
    (initBuffer s data w h).length = w * h := by
  unfold initBuffer
  rw [foldl_set_length, List.length_replicate]

theorem foldl_set_getD {α : Type} (f : ℕ → α) (init : List α) (d : α) :
    ∀ n, n ≤ init.length → ∀ p, p < n →
      ((List.range n).foldl (fun b q => b.set q (f q)) init).getD p d = f p := by
  intro n
  induction n with
  | zero => intro _ p hp; omega
  | succ n ih =>
    intro hn p hp
    rw [List.range_succ, List.foldl_append, List.foldl_cons, List.foldl_nil]
    rcases Nat.lt_or_ge p n with hlt | hge
    · rw [getD_set_ne _ _ _ (by omega)]
      exact ih (by omega) p hlt
    · have hp' : p = n := by omega
      rw [hp', getD_set_self _ _ _ _ (by rw [foldl_set_length]; omega)]

theorem initBuffer_getD (s : DitherSettings) (data : ℕ → ℚ) (w h p : ℕ)
    (hp : p < w * h) :
    (initBuffer s data w h).getD p (JSNum.num 0)
      = applyFilters s (data (4 * p)) (data (4 * p + 1)) (data (4 * p + 2)) := by
  unfold initBuffer
  exact foldl_set_getD _ _ _ (w * h) (by rw [List.length_replicate]) p hp

theorem processImage_getD (data rand : ℕ → ℚ) (w h : ℕ) (s : DitherSettings)
    (k : ℕ) (hk : k < w * h * 4) :
    (processImage data rand w h s).getD k 0
      = if k % 4 = 3 then 255
        else clampedByte
          ((ditherPass s rand w h (initBuffer s data w h)).getD (k / 4) (JSNum.num 0)) := by
  unfold processImage
  simp [List.getD_eq_getElem?_getD, List.getElem?_range hk]

theorem processImage_length (data rand : ℕ → ℚ) (w h : ℕ) (s : DitherSettings) :
    (processImage data rand w h s).length = w * h * 4 := by
  simp [processImage]

end MaterialDither
namespace MaterialDither

/-- C3: in FLOYD_STEINBERG mode, after the pixel's binary value is chosen the
quantisation error `oldLuminance - newBinaryValue` is added to exactly the
in-bounds, not-yet-visited neighbours, with weight 7/16 at `(x+1, y)`, 3/16 at
`(x-1, y+1)`, 5/16 at `(x, y+1)` and 1/16 at `(x+1, y+1)`; out-of-bounds
neighbours are skipped (no wrap-around, no out-of-bounds write), every other
buffer entry is untouched, and the four weights sum to exactly 1. -/
theorem floyd_steinberg_error_distribution (s : DitherSettings) (rand : ℕ → ℚ)
    (w h : ℕ) (buf : List JSNum) (x y : ℕ)
    (hm : s.method = .FLOYD_STEINBERG) (hb : buf.length = w * h)
    (hx : x < w) (hy : y < h) :
    ((ditherStep s rand w h buf x y).getD (y * w + x) (JSNum.num 0)
        = decidePixel s (rand (y * w + x)) (buf.getD (y * w + x) (JSNum.num 0)) x y)
    ∧ (x + 1 < w →
        (ditherStep s rand w h buf x y).getD (y * w + x + 1) (JSNum.num 0)
          = JSNum.add (buf.getD (y * w + x + 1) (JSNum.num 0))
              (JSNum.mul (quantErrorAt s rand w buf x y) (JSNum.num (7 / 16))))
    ∧ (y + 1 < h → 1 ≤ x →
        (ditherStep s rand w h buf x y).getD (y * w + x + w - 1) (JSNum.num 0)
          = JSNum.add (buf.getD (y * w + x + w - 1) (JSNum.num 0))
              (JSNum.mul (quantErrorAt s rand w buf x y) (JSNum.num (3 / 16))))
    ∧ (y + 1 < h →
        (ditherStep s rand w h buf x y).getD (y * w + x + w) (JSNum.num 0)
          = JSNum.add (buf.getD (y * w + x + w) (JSNum.num 0))
              (JSNum.mul (quantErrorAt s rand w buf x y) (JSNum.num (5 / 16))))
    ∧ (y + 1 < h → x + 1 < w →
        (ditherStep s rand w h buf x y).getD (y * w + x + w + 1) (JSNum.num 0)
          = JSNum.add (buf.getD (y * w + x + w + 1) (JSNum.num 0))
              (JSNum.mul (quantErrorAt s rand w buf x y) (JSNum.num (1 / 16))))
    ∧ (∀ j, j ≠ y * w + x →
        (x + 1 < w → j ≠ y * w + x + 1) →
        (y + 1 < h → 1 ≤ x → j ≠ y * w + x + w - 1) →
        (y + 1 < h → j ≠ y * w + x + w) →
        (y + 1 < h → x + 1 < w → j ≠ y * w + x + w + 1) →
        (ditherStep s rand w h buf x y).getD j (JSNum.num 0)
          = buf.getD j (JSNum.num 0))
    ∧ (7 : ℚ) / 16 + 3 / 16 + 5 / 16 + 1 / 16 = 1 := by
  have hbound : y * w + w ≤ w * h := by
    have h1 : (y + 1) * w ≤ h * w := Nat.mul_le_mul_right w hy
    have h2 : (y + 1) * w = y * w + w := by ring
    have h3 : h * w = w * h := by ring
    omega
  have hbound2 : y + 2 ≤ h → y * w + 2 * w ≤ w * h := fun hy2 => by
    have h1 : (y + 2) * w ≤ h * w := Nat.mul_le_mul_right w hy2
    have h2 : (y + 2) * w = y * w + 2 * w := by ring
    have h3 : h * w = w * h := by ring
    omega
  refine ⟨?_, ?_, ?_, ?_, ?_, ?_, by norm_num⟩ <;>
    [skip; intro g1; intro g2 g3; intro g2; intro g2 g1; intro j hj0 hj1 hj2 hj3 hj4] <;>
    (unfold ditherStep; rw [hm]; dsimp only) <;>
    split_ifs <;>
    (repeat first
      | rw [getD_addAt_ne _ _ _ (by omega)]
      | rw [getD_addAt_self _ _ _
          (by first
            | omega
            | (simp only [addAt_length, List.length_set]; omega))]
      | rw [getD_set_ne _ _ _ (by omega)]
      | rw [getD_set_self _ _ _ _
          (by first
            | omega
            | (simp only [addAt_length, List.length_set]; omega))]) <;>
    (try rfl) <;> (exfalso; omega)

end MaterialDither
namespace MaterialDither

/-- C4: in ATKINSON mode, after the pixel's binary value is chosen exactly one
eighth of the quantisation error is added to each in-bounds neighbour among
`(x+1, y)`, `(x+2, y)`, `(x-1, y+1)`, `(x, y+1)`, `(x+1, y+1)` and `(x, y+2)`,
skipping any neighbour outside the image; every other entry is untouched, the
distributed fraction totals 6/8, and the remaining quarter of the error is
discarded. -/
theorem atkinson_error_distribution (s : DitherSettings) (rand : ℕ → ℚ)
    (w h : ℕ) (buf : List JSNum) (x y : ℕ)
    (hm : s.method = .ATKINSON) (hb : buf.length = w * h)
    (hx : x < w) (hy : y < h) :
    ((ditherStep s rand w h buf x y).getD (y * w + x) (JSNum.num 0)
        = decidePixel s (rand (y * w + x)) (buf.getD (y * w + x) (JSNum.num 0)) x y)
    ∧ (x + 1 < w →
        (ditherStep s rand w h buf x y).getD (y * w + x + 1) (JSNum.num 0)
          = JSNum.add (buf.getD (y * w + x + 1) (JSNum.num 0))
              (JSNum.mul (quantErrorAt s rand w buf x y) (JSNum.num (1 / 8))))
    ∧ (x + 2 < w →
        (ditherStep s rand w h buf x y).getD (y * w + x + 2) (JSNum.num 0)
          = JSNum.add (buf.getD (y * w + x + 2) (JSNum.num 0))
              (JSNum.mul (quantErrorAt s rand w buf x y) (JSNum.num (1 / 8))))
    ∧ (y + 1 < h → 1 ≤ x →
        (ditherStep s rand w h buf x y).getD (y * w + x + w - 1) (JSNum.num 0)
          = JSNum.add (buf.getD (y * w + x + w - 1) (JSNum.num 0))
              (JSNum.mul (quantErrorAt s rand w buf x y) (JSNum.num (1 / 8))))
    ∧ (y + 1 < h →
        (ditherStep s rand w h buf x y).getD (y * w + x + w) (JSNum.num 0)
          = JSNum.add (buf.getD (y * w + x + w) (JSNum.num 0))
              (JSNum.mul (quantErrorAt s rand w buf x y) (JSNum.num (1 / 8))))
    ∧ (y + 1 < h → x + 1 < w →
        (ditherStep s rand w h buf x y).getD (y * w + x + w + 1) (JSNum.num 0)
          = JSNum.add (buf.getD (y * w + x + w + 1) (JSNum.num 0))
              (JSNum.mul (quantErrorAt s rand w buf x y) (JSNum.num (1 / 8))))
    ∧ (y + 2 < h →
        (ditherStep s rand w h buf x y).getD (y * w + x + 2 * w) (JSNum.num 0)
          = JSNum.add (buf.getD (y * w + x + 2 * w) (JSNum.num 0))
              (JSNum.mul (quantErrorAt s rand w buf x y) (JSNum.num (1 / 8))))
    ∧ (∀ j, j ≠ y * w + x →
        (x + 1 < w → j ≠ y * w + x + 1) →
        (x + 2 < w → j ≠ y * w + x + 2) →
        (y + 1 < h → 1 ≤ x → j ≠ y * w + x + w - 1) →
        (y + 1 < h → j ≠ y * w + x + w) →
        (y + 1 < h → x + 1 < w → j ≠ y * w + x + w + 1) →
        (y + 2 < h → j ≠ y * w + x + 2 * w) →
        (ditherStep s rand w h buf x y).getD j (JSNum.num 0)
          = buf.getD j (JSNum.num 0))
    ∧ (1 : ℚ) / 8 + 1 / 8 + 1 / 8 + 1 / 8 + 1 / 8 + 1 / 8 = 6 / 8
    ∧ (1 : ℚ) - 6 / 8 = 1 / 4 := by
  have hbound : y * w + w ≤ w * h := by
    have h1 : (y + 1) * w ≤ h * w := Nat.mul_le_mul_right w hy
    have h2 : (y + 1) * w = y * w + w := by ring
    have h3 : h * w = w * h := by ring
    omega
  have hbound2 : y + 2 ≤ h → y * w + 2 * w ≤ w * h := fun hy2 => by
    have h1 : (y + 2) * w ≤ h * w := Nat.mul_le_mul_right w hy2
    have h2 : (y + 2) * w = y * w + 2 * w := by ring
    have h3 : h * w = w * h := by ring
    omega
  have hbound3 : y + 3 ≤ h → y * w + 3 * w ≤ w * h := fun hy3 => by
    have h1 : (y + 3) * w ≤ h * w := Nat.mul_le_mul_right w hy3
    have h2 : (y + 3) * w = y * w + 3 * w := by ring
    have h3 : h * w = w * h := by ring
    omega
  refine ⟨?_, ?_, ?_, ?_, ?_, ?_, ?_, ?_, by norm_num, by norm_num⟩ <;>
    [skip; intro g1; intro g4; intro g2 g3; intro g2; intro g2 g1; intro g5;
      intro j hj0 hj1 hj2 hj3 hj4 hj5 hj6] <;>
    (unfold ditherStep; rw [hm]; dsimp only) <;>
    split_ifs <;>
    (repeat first
      | rw [getD_addAt_ne _ _ _ (by omega)]
      | rw [getD_addAt_self _ _ _
          (by first
            | omega
            | (simp only [addAt_length, List.length_set]; omega))]
      | rw [getD_set_ne _ _ _ (by omega)]
      | rw [getD_set_self _ _ _ _
          (by first
            | omega
            | (simp only [addAt_length, List.length_set]; omega))]) <;>
    (try rfl) <;> (exfalso; omega)

end MaterialDither

namespace MaterialDither

theorem clampedByte_num_zero : clampedByte (JSNum.num 0) = 0 := by
  with_unfolding_all rfl

theorem clampedByte_num_255 : clampedByte (JSNum.num 255) = 255 := by
  with_unfolding_all rfl

theorem output_channel_eq (data rand : ℕ → ℚ) (w h : ℕ) (s : DitherSettings)
    (p : ℕ) (hp : p < w * h) (c : ℕ) (hc : c < 3) :
    (processImage data rand w h s).getD (4 * p + c) 0
      = clampedByte
          ((ditherPass s rand w h (initBuffer s data w h)).getD p (JSNum.num 0)) := by
  have hk : 4 * p + c < w * h * 4 := by omega
  rw [processImage_getD _ _ _ _ _ _ hk, if_neg (by omega)]
  have h4 : (4 * p + c) / 4 = p := by omega
  rw [h4]

theorem output_alpha_eq (data rand : ℕ → ℚ) (w h : ℕ) (s : DitherSettings)
    (p : ℕ) (hp : p < w * h) :
    (processImage data rand w h s).getD (4 * p + 3) 0 = 255 := by
  have hk : 4 * p + 3 < w * h * 4 := by omega
  rw [processImage_getD _ _ _ _ _ _ hk, if_pos (by omega)]

theorem final_buffer_binary (data rand : ℕ → ℚ) (w h : ℕ) (s : DitherSettings)
    (p : ℕ) (hp : p < w * h) :
    (ditherPass s rand w h (initBuffer s data w h)).getD p (JSNum.num 0) = JSNum.num 0 ∨
    (ditherPass s rand w h (initBuffer s data w h)).getD p (JSNum.num 0)
      = JSNum.num 255 := by
  rw [ditherPass_eq_flatPass]
  have hcomm : h * w = w * h := Nat.mul_comm h w
  exact flatPass_binary s rand w h _ (initBuffer_length s data w h) (h * w)
    (by omega) p (by omega)

end MaterialDither
namespace MaterialDither

/-- C1: the greyscale value placed in the intermediate buffer before any
quantisation equals
`clamp(factor * ((0.299 r + 0.587 g + 0.114 b + brightness) - 128) + 128, 0, 255)`
with `factor = (259 * (contrast + 255)) / (255 * (259 - contrast))`, computed
in JavaScript arithmetic; the tone pipeline is applied exactly once per pixel
and never re-applied during error diffusion: the whole output depends on the
input only through the toned buffer. -/
theorem tone_pipeline_once (s : DitherSettings) (data : ℕ → ℚ) (w h p : ℕ)
    (hp : p < w * h) :
    ((initBuffer s data w h).getD p (JSNum.num 0)
      = JSNum.jmax (JSNum.num 0) (JSNum.jmin (JSNum.num 255)
          (JSNum.add
            (JSNum.mul
              (JSNum.div (JSNum.num (259 * (s.contrast + 255)))
                (JSNum.num (255 * (259 - s.contrast))))
              (JSNum.num (0.299 * data (4 * p) + 0.587 * data (4 * p + 1)
                  + 0.114 * data (4 * p + 2) + s.brightness - 128)))
            (JSNum.num 128))))
    ∧ ∀ data' rand : ℕ → ℚ,
        initBuffer s data' w h = initBuffer s data w h →
        processImage data' rand w h s = processImage data rand w h s := by
  constructor
  · rw [initBuffer_getD s data w h p hp]
    rfl
  · intro data' rand hEq
    unfold processImage
    rw [hEq]

theorem tone_pipeline_once_witness :
    (initBuffer (mkSettings .THRESHOLD 0) (constData 200) 1 1).getD 0 (JSNum.num 0)
      = JSNum.num 200 := by
  have H := (tone_pipeline_once (mkSettings .THRESHOLD 0) (constData 200) 1 1 0
    (by omega)).1
  exact H.trans (by with_unfolding_all decide)

/-- C6: for every input buffer, settings and method, each output pixel has
R = G = B with common value exactly 0 or exactly 255, and alpha exactly 255
regardless of the input alpha. -/
theorem output_binary_channels (data rand : ℕ → ℚ) (w h : ℕ) (s : DitherSettings)
    (p : ℕ) (hp : p < w * h) :
    ((processImage data rand w h s).getD (4 * p) 0 = 0 ∨
      (processImage data rand w h s).getD (4 * p) 0 = 255)
    ∧ (processImage data rand w h s).getD (4 * p + 1) 0
        = (processImage data rand w h s).getD (4 * p) 0
    ∧ (processImage data rand w h s).getD (4 * p + 2) 0
        = (processImage data rand w h s).getD (4 * p) 0
    ∧ (processImage data rand w h s).getD (4 * p + 3) 0 = 255 := by
  have h0 := output_channel_eq data rand w h s p hp 0 (by omega)
  have h1 := output_channel_eq data rand w h s p hp 1 (by omega)
  have h2 := output_channel_eq data rand w h s p hp 2 (by omega)
  rw [Nat.add_zero] at h0
  refine ⟨?_, h1.trans h0.symm, h2.trans h0.symm,
    output_alpha_eq data rand w h s p hp⟩
  rcases final_buffer_binary data rand w h s p hp with hbin | hbin <;> rw [h0, hbin]
  · exact Or.inl clampedByte_num_zero
  · exact Or.inr clampedByte_num_255

theorem output_binary_channels_witness :
    (processImage (constData 128) zeroRand 2 2 (mkSettings .ATKINSON 10)).getD 3 0
      = 255 := by
  have H := (output_binary_channels (constData 128) zeroRand 2 2
    (mkSettings .ATKINSON 10) 0 (by omega)).2.2.2
  simpa using H

/-- C7: in THRESHOLD, BAYER_4, BAYER_8 and NOISE modes a pixel step writes
only its own grey-buffer entry (no neighbour is mutated), so each output pixel
is determined solely by its own toned value, its coordinates `(x, y)` and its
own NOISE draw. -/
theorem nondiffusion_local_decision (s : DitherSettings) (rand : ℕ → ℚ) (w h : ℕ)
    (hm : s.method = .THRESHOLD ∨ s.method = .BAYER_4 ∨ s.method = .BAYER_8 ∨
      s.method = .NOISE) :
    (∀ buf x y j d, j ≠ y * w + x →
      (ditherStep s rand w h buf x y).getD j d = buf.getD j d)
    ∧ ∀ data : ℕ → ℚ, ∀ p, p < w * h →
        (processImage data rand w h s).getD (4 * p) 0
          = clampedByte (decidePixel s (rand p)
              ((initBuffer s data w h).getD p (JSNum.num 0)) (p % w) (p / w)) := by
  constructor
  · intro buf x y j d hj
    rw [ditherStep_nondiffusing s rand w h buf x y hm,
      getD_set_ne _ _ _ (fun hh => hj hh.symm)]
  · intro data p hp
    have h0 := output_channel_eq data rand w h s p hp 0 (by omega)
    rw [Nat.add_zero] at h0
    have hcomm : h * w = w * h := Nat.mul_comm h w
    rw [h0, ditherPass_eq_flatPass,
      flatPass_nondiffusing_getD s rand w h _ hm (initBuffer_length s data w h)
        (h * w) (by omega) p,
      if_pos (by omega)]

theorem nondiffusion_local_decision_witness :
    (processImage (constData 200) zeroRand 1 1 (mkSettings .THRESHOLD 0)).getD 0 0
      = 255 := by
  have H := (nondiffusion_local_decision (mkSettings .THRESHOLD 0) zeroRand 1 1
    (Or.inl rfl)).2 (constData 200) 0 (by omega)
  simpa using H.trans (by with_unfolding_all decide)

/-- C10: the core never reads the input alpha channel: two inputs that agree
on every R, G and B byte (all byte indices `k` with `k mod 4 ≠ 3`) produce
identical output buffers, for every method — NOISE included, under the same
random draws. -/
theorem alpha_noninterference (s : DitherSettings) (rand : ℕ → ℚ) (w h : ℕ)
    (data₁ data₂ : ℕ → ℚ) (hrgb : ∀ k, k % 4 ≠ 3 → data₁ k = data₂ k) :
    processImage data₁ rand w h s = processImage data₂ rand w h s := by
  have hinit : initBuffer s data₁ w h = initBuffer s data₂ w h := by
    unfold initBuffer
    refine List.foldl_ext _ _ _ (fun b p hp => ?_)
    rw [hrgb (4 * p) (by omega), hrgb (4 * p + 1) (by omega),
      hrgb (4 * p + 2) (by omega)]
  unfold processImage
  rw [hinit]

theorem alpha_noninterference_witness :
    processImage (fun k => if k % 4 = 3 then 7 else 100) zeroRand 1 1
        (mkSettings .THRESHOLD 0)
      = processImage (constData 100) zeroRand 1 1 (mkSettings .THRESHOLD 0) :=
  alpha_noninterference (mkSettings .THRESHOLD 0) zeroRand 1 1 _ _
    (fun k hk => by simp [constData, hk])

end MaterialDither
namespace MaterialDither

theorem decidePixel_default (s : DitherSettings) (draw : ℚ) (old : JSNum) (x y : ℕ)
    (hm : s.method = .THRESHOLD ∨ s.method = .FLOYD_STEINBERG ∨
      s.method = .ATKINSON) :
    decidePixel s draw old x y
      = if old.ltb (JSNum.num s.threshold) then JSNum.num 0 else JSNum.num 255 := by
  rcases hm with hh | hh | hh <;> (unfold decidePixel; rw [hh])

theorem decidePixel_bayer4_eq (s : DitherSettings) (draw : ℚ) (old : JSNum)
    (x y : ℕ) (hm : s.method = .BAYER_4) :
    decidePixel s draw old x y
      = if old.ltb (JSNum.num
            (((bayer4.getD (y % 4) []).getD (x % 4) 0 / 16 * 255 + s.threshold) / 2))
        then JSNum.num 0 else JSNum.num 255 := by
  unfold decidePixel
  rw [hm]

theorem decidePixel_bayer8_eq (s : DitherSettings) (draw : ℚ) (old : JSNum)
    (x y : ℕ) (hm : s.method = .BAYER_8) :
    decidePixel s draw old x y
      = if old.ltb (JSNum.num
            (((bayer8.getD (y % 8) []).getD (x % 8) 0 / 64 * 255 + s.threshold) / 2))
        then JSNum.num 0 else JSNum.num 255 := by
  unfold decidePixel
  rw [hm]

/-- C2: THRESHOLD mode outputs 255 exactly when the toned luminance is greater
than or equal to `settings.threshold` (equality yields 255) and 0 exactly when
it is strictly below. -/
theorem threshold_cut (s : DitherSettings) (data rand : ℕ → ℚ) (w h p : ℕ)
    (hm : s.method = .THRESHOLD) (hp : p < w * h) (q : ℚ)
    (htone : (initBuffer s data w h).getD p (JSNum.num 0) = JSNum.num q) :
    ((processImage data rand w h s).getD (4 * p) 0 = 255 ↔ s.threshold ≤ q)
    ∧ ((processImage data rand w h s).getD (4 * p) 0 = 0 ↔ q < s.threshold) := by
  have h0 := output_channel_eq data rand w h s p hp 0 (by omega)
  rw [Nat.add_zero] at h0
  have hcomm : h * w = w * h := Nat.mul_comm h w
  rw [h0, ditherPass_eq_flatPass,
    flatPass_nondiffusing_getD s rand w h _ (Or.inl hm) (initBuffer_length s data w h)
      (h * w) (by omega) p,
    if_pos (by omega), htone,
    decidePixel_default s (rand p) _ (p % w) (p / w) (Or.inl hm)]
  by_cases hq : q < s.threshold
  · rw [if_pos (by simp [JSNum.ltb, hq]), clampedByte_num_zero]
    exact ⟨⟨fun h255 => absurd h255 (by norm_num),
        fun hle => ((not_le.mpr hq) hle).elim⟩,
      ⟨fun _ => hq, fun _ => rfl⟩⟩
  · rw [if_neg (by simp [JSNum.ltb, hq]), clampedByte_num_255]
    exact ⟨⟨fun _ => not_lt.mp hq, fun _ => rfl⟩,
      ⟨fun h0' => absurd h0' (by norm_num), fun hlt => (hq hlt).elim⟩⟩

theorem threshold_cut_witness :
    (processImage (constData 200) zeroRand 1 1 (mkSettings .THRESHOLD 0)).getD 0 0
      = 255
    ∧ processImage (constData 200) zeroRand 1 1 (mkSettings .THRESHOLD 0)
      = [255, 255, 255, 255]
    ∧ processImage (constData 128) zeroRand 2 2 (mkSettings .THRESHOLD 0)
      = [255, 255, 255, 255, 255, 255, 255, 255,
         255, 255, 255, 255, 255, 255, 255, 255] := by
  refine ⟨?_, by with_unfolding_all decide, by with_unfolding_all decide⟩
  have H := (threshold_cut (mkSettings .THRESHOLD 0) (constData 200) zeroRand 1 1 0
    rfl (by omega) 200 (by with_unfolding_all decide)).1
  simpa using H.mpr (by norm_num [mkSettings])

/-- C5: BAYER_4 (resp. BAYER_8) decides each pixel by comparing its toned
luminance against `finalThresh = ((M[y mod n][x mod n] / n²) * 255 +
settings.threshold) / 2` with n = 4 (resp. n = 8): luminance below
`finalThresh` yields 0, otherwise 255. -/
theorem bayer_final_threshold (s : DitherSettings) (data rand : ℕ → ℚ)
    (w h p : ℕ) (hp : p < w * h) :
    (s.method = .BAYER_4 →
      (processImage data rand w h s).getD (4 * p) 0
        = if ((initBuffer s data w h).getD p (JSNum.num 0)).ltb
              (JSNum.num
                (((bayer4.getD (p / w % 4) []).getD (p % w % 4) 0 / 4 ^ 2 * 255
                    + s.threshold) / 2))
          then 0 else 255)
    ∧ (s.method = .BAYER_8 →
      (processImage data rand w h s).getD (4 * p) 0
        = if ((initBuffer s data w h).getD p (JSNum.num 0)).ltb
              (JSNum.num
                (((bayer8.getD (p / w % 8) []).getD (p % w % 8) 0 / 8 ^ 2 * 255
                    + s.threshold) / 2))
          then 0 else 255) := by
  have h0 := output_channel_eq data rand w h s p hp 0 (by omega)
  rw [Nat.add_zero] at h0
  have hcomm : h * w = w * h := Nat.mul_comm h w
  constructor <;> intro hm
  · rw [h0, ditherPass_eq_flatPass,
      flatPass_nondiffusing_getD s rand w h _ (Or.inr (Or.inl hm))
        (initBuffer_length s data w h) (h * w) (by omega) p,
      if_pos (by omega),
      decidePixel_bayer4_eq s (rand p) _ (p % w) (p / w) hm,
      show (4 : ℚ) ^ 2 = 16 from by norm_num]
    split_ifs
    · exact clampedByte_num_zero
    · exact clampedByte_num_255
  · rw [h0, ditherPass_eq_flatPass,
      flatPass_nondiffusing_getD s rand w h _ (Or.inr (Or.inr (Or.inl hm)))
        (initBuffer_length s data w h) (h * w) (by omega) p,
      if_pos (by omega),
      decidePixel_bayer8_eq s (rand p) _ (p % w) (p / w) hm,
      show (8 : ℚ) ^ 2 = 64 from by norm_num]
    split_ifs
    · exact clampedByte_num_zero
    · exact clampedByte_num_255

theorem bayer_final_threshold_witness :
    (processImage (constData 100) zeroRand 2 2 (mkSettings .BAYER_4 0)).getD 0 0
      = 255 := by
  have H := (bayer_final_threshold (mkSettings .BAYER_4 0) (constData 100) zeroRand
    2 2 0 (by omega)).1 rfl
  simpa using H.trans (by with_unfolding_all decide)

/-- C9: with `contrast = 259` (the value that zeroes the contrast-factor
denominator) the core still completes: the clamp after the contrast
computation never produces an infinity, the output has its full length, and
every output channel is still exactly 0 or 255 with alpha 255 — no non-finite
value reaches the output buffer. -/
theorem contrast259_tolerated (data rand : ℕ → ℚ) (w h : ℕ) (s : DitherSettings)
    (hc : s.contrast = 259) :
    (∀ r g b : ℚ, (applyFilters s r g b).isInf = false)
    ∧ (processImage data rand w h s).length = w * h * 4
    ∧ ∀ p, p < w * h →
        ((processImage data rand w h s).getD (4 * p) 0 = 0 ∨
          (processImage data rand w h s).getD (4 * p) 0 = 255)
        ∧ (processImage data rand w h s).getD (4 * p + 3) 0 = 255 := by
  have hfac : contrastFactor s = JSNum.inf true := by
    unfold contrastFactor
    rw [hc]
    norm_num [JSNum.div]
  refine ⟨?_, processImage_length data rand w h s, ?_⟩
  · intro r g b
    unfold applyFilters
    rw [hfac]
    dsimp only
    rcases lt_trichotomy (0.299 * r + 0.587 * g + 0.114 * b + s.brightness - 128) 0
      with ht | ht | ht
    · simp [JSNum.mul, JSNum.add, JSNum.jmin, JSNum.jmax, JSNum.isInf,
        ht.ne, asymm ht]
    · simp [JSNum.mul, JSNum.add, JSNum.jmin, JSNum.jmax, JSNum.isInf, ht]
    · simp [JSNum.mul, JSNum.add, JSNum.jmin, JSNum.jmax, JSNum.isInf,
        ht.ne', ht]
  · intro p hp
    have h0 := output_channel_eq data rand w h s p hp 0 (by omega)
    rw [Nat.add_zero] at h0
    refine ⟨?_, output_alpha_eq data rand w h s p hp⟩
    rcases final_buffer_binary data rand w h s p hp with hbin | hbin <;> rw [h0, hbin]
    · exact Or.inl clampedByte_num_zero
    · exact Or.inr clampedByte_num_255

theorem contrast259_tolerated_witness :
    (applyFilters (mkSettings .THRESHOLD 259) 128 128 128).isInf = false
    ∧ processImage (constData 128) zeroRand 1 1 (mkSettings .THRESHOLD 259)
        = [255, 255, 255, 255] :=
  ⟨(contrast259_tolerated (constData 128) zeroRand 1 1 (mkSettings .THRESHOLD 259)
      rfl).1 128 128 128,
    by with_unfolding_all decide⟩

end MaterialDither
namespace MaterialDither

theorem floyd_steinberg_error_distribution_witness :
    (ditherStep (mkSettings .FLOYD_STEINBERG 0) zeroRand 2 2
        [JSNum.num 100, JSNum.num 0, JSNum.num 0, JSNum.num 0] 0 0).getD 1
        (JSNum.num 0)
      = JSNum.num (175 / 4) := by
  have H := (floyd_steinberg_error_distribution (mkSettings .FLOYD_STEINBERG 0)
    zeroRand 2 2 [JSNum.num 100, JSNum.num 0, JSNum.num 0, JSNum.num 0] 0 0
    rfl rfl (by omega) (by omega)).2.1 (by omega)
  simpa using H.trans (by with_unfolding_all decide)

theorem atkinson_error_distribution_witness :
    (ditherStep (mkSettings .ATKINSON 0) zeroRand 2 2
        [JSNum.num 100, JSNum.num 0, JSNum.num 0, JSNum.num 0] 0 0).getD 1
        (JSNum.num 0)
      = JSNum.num (25 / 2) := by
  have H := (atkinson_error_distribution (mkSettings .ATKINSON 0)
    zeroRand 2 2 [JSNum.num 100, JSNum.num 0, JSNum.num 0, JSNum.num 0] 0 0
    rfl rfl (by omega) (by omega)).2.1 (by omega)
  simpa using H.trans (by with_unfolding_all decide)

theorem ltb_num (a b : ℚ) : (JSNum.num a).ltb (JSNum.num b) = decide (a < b) := rfl

theorem contrastFactor_num (s : DitherSettings) (hc : s.contrast < 259) :
    contrastFactor s
      = JSNum.num (259 * (s.contrast + 255) / (255 * (259 - s.contrast))) := by
  have hden : (0 : ℚ) < 255 * (259 - s.contrast) :=
    mul_pos (by norm_num) (by linarith)
  unfold contrastFactor
  simp only [JSNum.div]
  rw [if_neg (ne_of_gt hden)]

theorem contrastFactor_nonneg (s : DitherSettings) (hc1 : -255 ≤ s.contrast)
    (hc2 : s.contrast < 259) :
    0 ≤ 259 * (s.contrast + 255) / (255 * (259 - s.contrast)) :=
  div_nonneg (by nlinarith) (by nlinarith)

theorem applyFilters_toneQ (s : DitherSettings) (φ : ℚ)
    (hφ : contrastFactor s = JSNum.num φ) (r g b : ℚ) :
    applyFilters s r g b
      = JSNum.num (toneQ φ s.brightness (0.299 * r + 0.587 * g + 0.114 * b)) := by
  unfold applyFilters toneQ
  rw [hφ]
  simp only [JSNum.mul, JSNum.add, JSNum.jmin, JSNum.jmax]

theorem toneQ_mono (φ br : ℚ) (hφ : 0 ≤ φ) {a b : ℚ} (hab : a ≤ b) :
    toneQ φ br a ≤ toneQ φ br b := by
  unfold toneQ
  have hmul : φ * (a + br - 128) ≤ φ * (b + br - 128) := by nlinarith
  exact max_le_max le_rfl (min_le_min le_rfl (by linarith))

theorem luma_const (v : ℚ) : 0.299 * v + 0.587 * v + 0.114 * v = v := by
  ring

theorem luma_bounds (r g b : ℚ)
    (h : 0 ≤ r ∧ r ≤ 255 ∧ 0 ≤ g ∧ g ≤ 255 ∧ 0 ≤ b ∧ b ≤ 255) :
    0 ≤ 0.299 * r + 0.587 * g + 0.114 * b
      ∧ 0.299 * r + 0.587 * g + 0.114 * b ≤ 255 := by
  obtain ⟨h1, h2, h3, h4, h5, h6⟩ := h
  constructor <;> nlinarith

theorem clampedByte_ite (P : Prop) [Decidable P] :
    clampedByte (if P then JSNum.num 0 else JSNum.num 255)
      = if P then 0 else 255 := by
  split_ifs
  · exact clampedByte_num_zero
  · exact clampedByte_num_255

end MaterialDither
namespace MaterialDither

theorem second_run_pixel (s : DitherSettings) (rand rand2 : ℕ → ℚ) (w h : ℕ)
    (data : ℕ → ℚ) (p : ℕ) (hp : p < w * h)
    (hm4 : s.method = .THRESHOLD ∨ s.method = .BAYER_4 ∨ s.method = .BAYER_8 ∨
      s.method = .NOISE)
    (hbytes : ∀ k, 0 ≤ data k ∧ data k ≤ 255)
    (φ : ℚ) (hφ : contrastFactor s = JSNum.num φ) (hφ0 : 0 ≤ φ)
    (T : ℚ)
    (hdp : ∀ draw old, decidePixel s draw old (p % w) (p / w)
        = if old.ltb (JSNum.num T) then JSNum.num 0 else JSNum.num 255)
    (c : ℕ) (hc : c < 3) :
    (processImage (fun k => ((processImage data rand w h s).getD k 0 : ℚ))
        rand2 w h s).getD (4 * p + c) 0
      = (processImage data rand w h s).getD (4 * p + c) 0 := by
  have hcomm : h * w = w * h := Nat.mul_comm h w
  have hlb := luma_bounds (data (4 * p)) (data (4 * p + 1)) (data (4 * p + 2))
    ⟨(hbytes _).1, (hbytes _).2, (hbytes _).1, (hbytes _).2,
      (hbytes _).1, (hbytes _).2⟩
  have hout : ∀ j, j < 3 → (processImage data rand w h s).getD (4 * p + j) 0
      = if toneQ φ s.brightness
            (0.299 * data (4 * p) + 0.587 * data (4 * p + 1)
              + 0.114 * data (4 * p + 2)) < T
        then 0 else 255 := by
    intro j hj
    rw [output_channel_eq data rand w h s p hp j hj, ditherPass_eq_flatPass,
      flatPass_nondiffusing_getD s rand w h _ hm4 (initBuffer_length s data w h)
        (h * w) (by omega) p, if_pos (by omega),
      initBuffer_getD s data w h p hp, applyFilters_toneQ s φ hφ, hdp,
      ltb_num]
    simp only [decide_eq_true_eq]
    exact clampedByte_ite _
  have hout0 : (processImage data rand w h s).getD (4 * p) 0
      = if toneQ φ s.brightness
            (0.299 * data (4 * p) + 0.587 * data (4 * p + 1)
              + 0.114 * data (4 * p + 2)) < T
        then 0 else 255 := by
    have := hout 0 (by omega)
    rwa [Nat.add_zero] at this
  rw [output_channel_eq _ rand2 w h s p hp c hc, ditherPass_eq_flatPass,
    flatPass_nondiffusing_getD s rand2 w h _ hm4 (initBuffer_length s _ w h)
      (h * w) (by omega) p, if_pos (by omega),
    initBuffer_getD s _ w h p hp, applyFilters_toneQ s φ hφ, hdp, ltb_num]
  simp only [decide_eq_true_eq]
  rw [clampedByte_ite, hout c hc]
  simp only [hout0, hout 1 (by omega), hout 2 (by omega)]
  by_cases hPT : toneQ φ s.brightness
      (0.299 * data (4 * p) + 0.587 * data (4 * p + 1)
        + 0.114 * data (4 * p + 2)) < T
  · simp only [if_pos hPT]
    rw [if_pos ?hcond]
    case hcond =>
      push_cast
      rw [luma_const]
      exact lt_of_le_of_lt (toneQ_mono φ s.brightness hφ0 hlb.1) hPT
  · simp only [if_neg hPT]
    rw [if_neg ?hcond]
    case hcond =>
      push_cast
      rw [luma_const]
      intro hlt
      exact hPT (lt_of_le_of_lt (toneQ_mono φ s.brightness hφ0 hlb.2) hlt)

end MaterialDither
namespace MaterialDither

/-- C8 (amended): for THRESHOLD, BAYER_4 or BAYER_8 with settings whose
contrast lies in `[-255, 259)` — which contains the documented `-100..100`
contrast domain — running the processing a second time on the output of the
first run (an already-binarised buffer) reproduces that output exactly:
process composed with itself equals process.  Outside that contrast range the
contrast factor is negative and the property fails (see the counterexample). -/
theorem binary_idempotence (s : DitherSettings) (rand rand2 : ℕ → ℚ) (w h : ℕ)
    (data : ℕ → ℚ)
    (hm3 : s.method = .THRESHOLD ∨ s.method = .BAYER_4 ∨ s.method = .BAYER_8)
    (hc1 : -255 ≤ s.contrast) (hc2 : s.contrast < 259)
    (hbin : ∀ k, data k = 0 ∨ data k = 255) :
    processImage (fun k => ((processImage data rand w h s).getD k 0 : ℚ))
        rand2 w h s
      = processImage data rand w h s := by
  have hbytes : ∀ k, 0 ≤ data k ∧ data k ≤ 255 := fun k => by
    rcases hbin k with hk | hk <;> rw [hk] <;> norm_num
  have hφ := contrastFactor_num s hc2
  have hφ0 := contrastFactor_nonneg s hc1 hc2
  have hgetD : ∀ (l : List ℕ) (k : ℕ) (hh : k < l.length), l.getD k 0 = l[k] := by
    intro l k hh
    rw [List.getD_eq_getElem?_getD, List.getElem?_eq_getElem hh]
    rfl
  apply List.ext_getElem
  · rw [processImage_length, processImage_length]
  · intro k hk1 hk2
    rw [processImage_length] at hk1
    rw [← hgetD _ k (by rw [processImage_length]; omega),
      ← hgetD _ k (by rw [processImage_length]; omega)]
    obtain ⟨p, c, hclt, rfl⟩ : ∃ p c, c < 4 ∧ k = 4 * p + c :=
      ⟨k / 4, k % 4, by omega, by omega⟩
    have hp : p < w * h := by omega
    rcases Nat.lt_or_ge c 3 with hc3 | hc3
    · rcases hm3 with hm | hm | hm
      · exact second_run_pixel s rand rand2 w h data p hp (Or.inl hm) hbytes _ hφ
          hφ0 s.threshold
          (fun draw old => decidePixel_default s draw old (p % w) (p / w) (Or.inl hm))
          c hc3
      · exact second_run_pixel s rand rand2 w h data p hp (Or.inr (Or.inl hm))
          hbytes _ hφ hφ0
          (((bayer4.getD (p / w % 4) []).getD (p % w % 4) 0 / 16 * 255
            + s.threshold) / 2)
          (fun draw old => decidePixel_bayer4_eq s draw old (p % w) (p / w) hm)
          c hc3
      · exact second_run_pixel s rand rand2 w h data p hp
          (Or.inr (Or.inr (Or.inl hm))) hbytes _ hφ hφ0
          (((bayer8.getD (p / w % 8) []).getD (p % w % 8) 0 / 64 * 255
            + s.threshold) / 2)
          (fun draw old => decidePixel_bayer8_eq s draw old (p % w) (p / w) hm)
          c hc3
    · have hc4 : c = 3 := by omega
      subst hc4
      rw [output_alpha_eq _ rand2 w h s p hp, output_alpha_eq data rand w h s p hp]

theorem binary_idempotence_witness :
    processImage (fun k => ((processImage (constData 0) zeroRand 2 2
        (mkSettings .THRESHOLD 10)).getD k 0 : ℚ)) zeroRand 2 2
        (mkSettings .THRESHOLD 10)
      = processImage (constData 0) zeroRand 2 2 (mkSettings .THRESHOLD 10) :=
  binary_idempotence (mkSettings .THRESHOLD 10) zeroRand zeroRand 2 2 (constData 0)
    (Or.inl rfl) (by norm_num [mkSettings]) (by norm_num [mkSettings])
    (fun k => Or.inl rfl)

/-- C8 counterexample: with the out-of-domain settings record
`{method := THRESHOLD, threshold := 128, contrast := -500, brightness := 0}`
(contrast factor negative), re-processing the output of a run on a 1×1
all-black (already binarised) image flips the pixel: the first run yields
white, the second run turns it black, so process ∘ process ≠ process. -/
theorem binary_idempotence_counterexample :
    processImage
        (fun k => ((processImage (constData 0) zeroRand 1 1
          (mkSettings .THRESHOLD (-500))).getD k 0 : ℚ))
        zeroRand 1 1 (mkSettings .THRESHOLD (-500))
      ≠ processImage (constData 0) zeroRand 1 1 (mkSettings .THRESHOLD (-500)) := by
  with_unfolding_all decide

end MaterialDither
